import Mathlib

/-
Verification development for the norad designspace codec and DataRequest.

The designspace codec (src/designspace.rs) maps an XML document to the
DesignSpaceDocument model and back.  The XML syntax layer (lexing bytes
into a tree) is the external quick-xml library; the repository's own
logic operates on the element/attribute tree, so the embedding works on
an XML tree type.  Attribute values are modelled by the value the
target field type parses them to (a string, an f32 number - modelled as
a rational, a whitespace separated number list, or a boolean), relying
on the fact that the text form written by the serializer is read back
to the same value by the parser.
-/

namespace Norad

/-- An attribute value, as interpreted by the typed field it feeds. -/
inductive AVal where
  | str (s : String)
  | num (q : Rat)
  | numList (qs : List Rat)
  | bool (b : Bool)
deriving DecidableEq

/-- An XML element: tag name, attributes, child elements, text content. -/
inductive Xml where
  | mk (name : String) (attrs : List (String × AVal)) (children : List Xml) (text : String)

/-- Tag name of an element. -/
def Xml.name : Xml → String
  | .mk n _ _ _ => n

/-- Attribute list of an element. -/
def Xml.attrs : Xml → List (String × AVal)
  | .mk _ a _ _ => a

/-- Child elements of an element. -/
def Xml.children : Xml → List Xml
  | .mk _ _ c _ => c

/-- Text content of an element. -/
def Xml.text : Xml → String
  | .mk _ _ _ t => t

/-- Modelled from the spec: the dynamically typed property-list value held
by lib dictionaries (string, integer, float, boolean, nested array, nested
dictionary, binary blob, date); the plist value type comes from the plist
crate and the generic codec from src/serde_xml_plist.rs, neither of which
is under src/. -/
inductive PValue where
  | string (s : String)
  | integer (i : Int)
  | real (q : Rat)
  | boolean (b : Bool)
  | array (xs : List PValue)
  | dict (entries : List (String × PValue))
  | data (base64 : String)
  | date (iso : String)

/-- A lib dictionary: ordered key/value pairs of plist values. -/
def Dictionary : Type := List (String × PValue)

/-- Structural deserialization errors, the role quick-xml's DeError plays:
a malformed byte stream, or a well-formed tree violating the expected
shape (missing or duplicated field, attribute of the wrong type). -/
inductive DeError where
  | malformedXml
  | missingField (f : String)
  | duplicateField (f : String)
  | typeMismatch (f : String)
deriving DecidableEq

/-- Modelled from the spec: DesignSpaceLoadError lives in src/error.rs which
is not under src/; per the spec it distinguishes an I/O failure wrapping the
underlying system error from a structural deserialization failure. -/
inductive DesignSpaceLoadError where
  | Io (underlying : String)
  | DeError (e : DeError)

/-- A design space dimension (struct Dimension in src/designspace.rs):
required name attribute, three independently optional value attributes. -/
structure Dimension where
  name : String
  uservalue : Option Rat
  xvalue : Option Rat
  yvalue : Option Rat
deriving DecidableEq

/-- One axis mapping (struct AxisMapping): required input and output. -/
structure AxisMapping where
  input : Rat
  output : Rat
deriving DecidableEq

/-- An axis (struct Axis): name, tag and default are required attributes,
hidden defaults to false, minimum, maximum and values are optional, map is
an optional list of child map elements. -/
structure Axis where
  name : String
  tag : String
  default : Rat
  hidden : Bool
  minimum : Option Rat
  maximum : Option Rat
  values : Option (List Rat)
  map : Option (List AxisMapping)
deriving DecidableEq

/-- A source (struct Source): filename is the only required attribute,
location is a required child element (a wrapped dimension list). -/
structure Source where
  familyname : Option String
  stylename : Option String
  name : Option String
  filename : String
  layer : Option String
  location : List Dimension
deriving DecidableEq

/-- An instance (struct Instance): all identity attributes optional,
location a required wrapped dimension list, lib an optional plist dict. -/
structure Instance where
  familyname : Option String
  stylename : Option String
  name : Option String
  filename : Option String
  postscriptfontname : Option String
  stylemapfamilyname : Option String
  stylemapstylename : Option String
  location : List Dimension
  lib : Dictionary

/-- The root document (struct DesignSpaceDocument): format attribute, the
axes, sources and instances sequences and a document-level lib dictionary.
instances and lib have serde defaults (empty) when their element is absent. -/
structure DesignSpaceDocument where
  format : Rat
  axes : List Axis
  sources : List Source
  instances : List Instance
  lib : Dictionary

/-- The selective load descriptor (struct DataRequest in
src/data_request.rs): seven independent boolean flags. -/
structure DataRequest where
  layers : Bool
  lib : Bool
  groups : Bool
  kerning : Bool
  features : Bool
  data : Bool
  images : Bool
deriving DecidableEq

/-- DataRequest::from_bool: every flag set to the given value. -/
def DataRequest.from_bool (b : Bool) : DataRequest :=
  ⟨b, b, b, b, b, b, b⟩

/-- DataRequest::all. -/
def DataRequest.all : DataRequest :=
  DataRequest.from_bool true

/-- DataRequest::none. -/
def DataRequest.none : DataRequest :=
  DataRequest.from_bool false

/-- The Default impl for DataRequest. -/
def DataRequest.default : DataRequest :=
  DataRequest.from_bool true

/-- Look up an attribute by name (first match, as in XML). -/
def findAttr (e : Xml) (k : String) : Option AVal :=
  match e.attrs.find? (fun p => p.fst == k) with
  | some p => some p.snd
  | none => none

/-- The child elements carrying a given tag name. -/
def childrenNamed (e : Xml) (k : String) : List Xml :=
  e.children.filter (fun c => c.name == k)

/-- A field mapped to exactly one child element: absence is a missing
field, repetition a duplicate field (serde semantics for a non-sequence
field). -/
def oneChild (e : Xml) (k : String) : Except DeError Xml :=
  match childrenNamed e k with
  | [] => .error (.missingField k)
  | [c] => .ok c
  | _ => .error (.duplicateField k)

/-- A required string attribute. -/
def reqStrAttr (e : Xml) (k : String) : Except DeError String :=
  match findAttr e k with
  | some (.str s) => .ok s
  | some _ => .error (.typeMismatch k)
  | none => .error (.missingField k)

/-- An optional string attribute: absence decodes to none. -/
def optStrAttr (e : Xml) (k : String) : Except DeError (Option String) :=
  match findAttr e k with
  | some (.str s) => .ok (some s)
  | some _ => .error (.typeMismatch k)
  | none => .ok none

/-- A required f32 attribute. -/
def reqNumAttr (e : Xml) (k : String) : Except DeError Rat :=
  match findAttr e k with
  | some (.num q) => .ok q
  | some _ => .error (.typeMismatch k)
  | none => .error (.missingField k)

/-- An optional f32 attribute: absence decodes to none, never to zero. -/
def optNumAttr (e : Xml) (k : String) : Except DeError (Option Rat) :=
  match findAttr e k with
  | some (.num q) => .ok (some q)
  | some _ => .error (.typeMismatch k)
  | none => .ok none

/-- An optional space-separated f32 list attribute. -/
def optNumListAttr (e : Xml) (k : String) : Except DeError (Option (List Rat)) :=
  match findAttr e k with
  | some (.numList qs) => .ok (some qs)
  | some _ => .error (.typeMismatch k)
  | none => .ok none

/-- A bool attribute with a serde default: absence decodes to false. -/
def optBoolAttr (e : Xml) (k : String) : Except DeError Bool :=
  match findAttr e k with
  | some (.bool b) => .ok b
  | some _ => .error (.typeMismatch k)
  | none => .ok false

/-- Digits of a decimal numeral to a natural number. -/
def parseDigits : List Char → Option Nat
  | [] => none
  | cs => cs.foldlM (fun acc c =>
      if c.isDigit then some (acc * 10 + (c.toNat - 48)) else none) 0

/-- Modelled from the spec: a plist real is decimal text; parse an
optional sign, an integer part and an optional fractional part. -/
def parseRatText (s : String) : Option Rat :=
  let neg := s.startsWith ("-")
  let body := if neg then s.drop 1 else s
  match body.splitOn (".") with
  | [a] => (parseDigits a.toList).map (fun n =>
      if neg then -(n : Rat) else (n : Rat))
  | [a, b] =>
    match parseDigits a.toList, parseDigits b.toList with
    | some x, some y =>
      let q : Rat := (x : Rat) + (y : Rat) / ((10 : Rat) ^ b.length)
      some (if neg then -q else q)
    | _, _ => none
  | _ => none

mutual

/-- Modelled from the spec: decode one plist value element of the generic
property-list-in-markup codec (src/serde_xml_plist.rs is not under src/). -/
def decodePValue : Xml → Except DeError PValue
  | .mk n _ cs t =>
    if n = "string" then .ok (.string t)
    else if n = "integer" then
      match t.toInt? with
      | some i => .ok (.integer i)
      | none => .error (.typeMismatch n)
    else if n = "real" then
      match parseRatText t with
      | some q => .ok (.real q)
      | none => .error (.typeMismatch n)
    else if n = "true" then .ok (.boolean true)
    else if n = "false" then .ok (.boolean false)
    else if n = "array" then
      match decodePList cs with
      | .ok xs => .ok (.array xs)
      | .error err => .error err
    else if n = "dict" then
      match decodePPairs cs with
      | .ok es => .ok (.dict es)
      | .error err => .error err
    else if n = "data" then .ok (.data t)
    else if n = "date" then .ok (.date t)
    else .error (.typeMismatch n)

/-- Modelled from the spec: decode the value elements of a plist array. -/
def decodePList : List Xml → Except DeError (List PValue)
  | [] => .ok []
  | c :: rest =>
    match decodePValue c with
    | .ok v =>
      match decodePList rest with
      | .ok vs => .ok (v :: vs)
      | .error err => .error err
    | .error err => .error err

/-- Modelled from the spec: decode the alternating key and value children
of a plist dict element. -/
def decodePPairs : List Xml → Except DeError (List (String × PValue))
  | [] => .ok []
  | [_] => .error .malformedXml
  | k :: v :: rest =>
    if k.name = "key" then
      match decodePValue v with
      | .ok pv =>
        match decodePPairs rest with
        | .ok es => .ok ((k.text, pv) :: es)
        | .error err => .error err
      | .error err => .error err
    else .error .malformedXml

end

/-- Modelled from the spec: serde_xml_plist::deserialize_dict decodes a lib
element holding one plist dict child into a Dictionary. -/
def deserialize_dict (e : Xml) : Except DeError Dictionary :=
  match oneChild e ("dict") with
  | .ok d => decodePPairs d.children
  | .error err => .error err

/-- Derived Deserialize for Dimension: required name attribute, three
independently optional value attributes. -/
def decodeDimension (e : Xml) : Except DeError Dimension := do
  let name ← reqStrAttr e ("name")
  let uservalue ← optNumAttr e ("uservalue")
  let xvalue ← optNumAttr e ("xvalue")
  let yvalue ← optNumAttr e ("yvalue")
  pure ⟨name, uservalue, xvalue, yvalue⟩

/-- serde_impls::deserialize_location: unwrap one level of nesting, a
location element holding repeated dimension children; an empty wrapper is
a missing dimension field (Vec without a serde default). -/
def deserialize_location (e : Xml) : Except DeError (List Dimension) :=
  match childrenNamed e ("dimension") with
  | [] => .error (.missingField ("dimension"))
  | ds => ds.mapM decodeDimension

/-- Derived Deserialize for AxisMapping: required input and output. -/
def decodeAxisMapping (e : Xml) : Except DeError AxisMapping := do
  let input ← reqNumAttr e ("input")
  let output ← reqNumAttr e ("output")
  pure ⟨input, output⟩

/-- The map field of Axis: repeated map child elements collected directly
(no wrapper in the format); zero children decode to none. -/
def decodeAxisMaps (e : Xml) : Except DeError (Option (List AxisMapping)) :=
  match childrenNamed e ("map") with
  | [] => .ok none
  | ms => (ms.mapM decodeAxisMapping).map some

/-- Derived Deserialize for Axis, field by field in declaration order. -/
def decodeAxis (e : Xml) : Except DeError Axis := do
  let name ← reqStrAttr e ("name")
  let tag ← reqStrAttr e ("tag")
  let default ← reqNumAttr e ("default")
  let hidden ← optBoolAttr e ("hidden")
  let minimum ← optNumAttr e ("minimum")
  let maximum ← optNumAttr e ("maximum")
  let values ← optNumListAttr e ("values")
  let map ← decodeAxisMaps e
  pure ⟨name, tag, default, hidden, minimum, maximum, values, map⟩

/-- Derived Deserialize for Source: filename required, location a required
child decoded through deserialize_location. -/
def decodeSource (e : Xml) : Except DeError Source := do
  let familyname ← optStrAttr e ("familyname")
  let stylename ← optStrAttr e ("stylename")
  let name ← optStrAttr e ("name")
  let filename ← reqStrAttr e ("filename")
  let layer ← optStrAttr e ("layer")
  let w ← oneChild e ("location")
  let location ← deserialize_location w
  pure ⟨familyname, stylename, name, filename, layer, location⟩

/-- The lib field of Instance and of the document: absent element decodes
to the empty dictionary (serde default), a present element through
deserialize_dict. -/
def decodeLibOf (e : Xml) : Except DeError Dictionary :=
  match childrenNamed e ("lib") with
  | [] => .ok []
  | [c] => deserialize_dict c
  | _ => .error (.duplicateField ("lib"))

/-- Derived Deserialize for Instance: all identity attributes optional,
location required, lib defaulting to empty. -/
def decodeInstance (e : Xml) : Except DeError Instance := do
  let familyname ← optStrAttr e ("familyname")
  let stylename ← optStrAttr e ("stylename")
  let name ← optStrAttr e ("name")
  let filename ← optStrAttr e ("filename")
  let postscriptfontname ← optStrAttr e ("postscriptfontname")
  let stylemapfamilyname ← optStrAttr e ("stylemapfamilyname")
  let stylemapstylename ← optStrAttr e ("stylemapstylename")
  let w ← oneChild e ("location")
  let location ← deserialize_location w
  let lib ← decodeLibOf e
  pure ⟨familyname, stylename, name, filename, postscriptfontname,
        stylemapfamilyname, stylemapstylename, location, lib⟩

/-- serde_impls::deserialize_axes: unwrap the axes wrapper into its axis
children; an empty wrapper is a missing axis field. -/
def deserialize_axes (e : Xml) : Except DeError (List Axis) :=
  match childrenNamed e ("axis") with
  | [] => .error (.missingField ("axis"))
  | cs => cs.mapM decodeAxis

/-- serde_impls::deserialize_sources: unwrap the sources wrapper. -/
def deserialize_sources (e : Xml) : Except DeError (List Source) :=
  match childrenNamed e ("source") with
  | [] => .error (.missingField ("source"))
  | cs => cs.mapM decodeSource

/-- serde_impls::deserialize_instances: unwrap the instances wrapper. -/
def deserialize_instances (e : Xml) : Except DeError (List Instance) :=
  match childrenNamed e ("instance") with
  | [] => .error (.missingField ("instance"))
  | cs => cs.mapM decodeInstance

/-- The axes field of the root: exactly one axes wrapper child required
(no serde default), unwrapped by deserialize_axes. -/
def decodeAxesField (root : Xml) : Except DeError (List Axis) :=
  match oneChild root ("axes") with
  | .ok w => deserialize_axes w
  | .error err => .error err

/-- The sources field of the root: exactly one sources wrapper child
required, unwrapped by deserialize_sources. -/
def decodeSourcesField (root : Xml) : Except DeError (List Source) :=
  match oneChild root ("sources") with
  | .ok w => deserialize_sources w
  | .error err => .error err

/-- The instances field of the root: a serde default applies, so a missing
wrapper decodes to the empty sequence; a present wrapper goes through
deserialize_instances. -/
def decodeInstancesField (root : Xml) : Except DeError (List Instance) :=
  match childrenNamed root ("instances") with
  | [] => .ok []
  | [c] => deserialize_instances c
  | _ => .error (.duplicateField ("instances"))

/-- The document-level lib field: serde default empty when absent. -/
def decodeLibField (root : Xml) : Except DeError Dictionary :=
  decodeLibOf root

/-- Derived Deserialize for DesignSpaceDocument, the decode half of the
codec: format attribute, then the four field decoders. -/
def decodeDesignSpace (root : Xml) : Except DeError DesignSpaceDocument := do
  let format ← reqNumAttr root ("format")
  let axes ← decodeAxesField root
  let sources ← decodeSourcesField root
  let instances ← decodeInstancesField root
  let lib ← decodeLibField root
  pure ⟨format, axes, sources, instances, lib⟩

/-- DesignSpaceDocument::load, over an abstract filesystem-and-parser
front end: a path maps to an I/O error (the file cannot be opened or
read), to unparseable bytes (none), or to a parsed XML tree.  An I/O
failure wraps the underlying error in DesignSpaceLoadError::Io, anything
read but structurally invalid surfaces as DesignSpaceLoadError::DeError. -/
def load (fs : String → Except String (Option Xml)) (path : String) :
    Except DesignSpaceLoadError DesignSpaceDocument :=
  match fs path with
  | .error io => .error (.Io io)
  | .ok none => .error (.DeError .malformedXml)
  | .ok (some root) =>
    match decodeDesignSpace root with
    | .error e => .error (.DeError e)
    | .ok d => .ok d

/-- An optional f32 attribute serializes only when present. -/
def optAttrNum (k : String) : Option Rat → List (String × AVal)
  | none => []
  | some q => [(k, .num q)]

/-- An optional string attribute serializes only when present. -/
def optAttrStr (k : String) : Option String → List (String × AVal)
  | none => []
  | some s => [(k, .str s)]

/-- An optional f32 list attribute serializes only when present. -/
def optAttrNumList (k : String) : Option (List Rat) → List (String × AVal)
  | none => []
  | some qs => [(k, .numList qs)]

/-
Encoding is the derived Serialize impl run through the quick-xml
serializer (DesignSpaceDocument::save has no custom serialization): a
struct field holding a value becomes one element named after the field,
and a field holding a sequence becomes one element per item, each named
after the field - the serializer emits no wrapper element around a
sequence.  The element name is therefore a parameter of each item
encoder.
-/

/-- Serialize one Dimension under the given element name. -/
def encodeDimensionAs (tag : String) (d : Dimension) : Xml :=
  .mk tag
    ([("name", .str d.name)]
      ++ optAttrNum ("uservalue") d.uservalue
      ++ optAttrNum ("xvalue") d.xvalue
      ++ optAttrNum ("yvalue") d.yvalue)
    [] ("")

/-- Serialize one AxisMapping under the given element name. -/
def encodeAxisMappingAs (tag : String) (m : AxisMapping) : Xml :=
  .mk tag [("input", .num m.input), ("output", .num m.output)] [] ("")

/-- Serialize one Axis under the given element name: attributes in field
order (hidden always written, having no skip attribute), then one map
child per mapping. -/
def encodeAxisAs (tag : String) (a : Axis) : Xml :=
  .mk tag
    ([("name", .str a.name), ("tag", .str a.tag), ("default", .num a.default),
      ("hidden", .bool a.hidden)]
      ++ optAttrNum ("minimum") a.minimum
      ++ optAttrNum ("maximum") a.maximum
      ++ optAttrNumList ("values") a.values)
    (match a.map with
     | none => []
     | some ms => ms.map (encodeAxisMappingAs ("map")))
    ("")

/-- Serialize one Source under the given element name: the location field
holds a sequence of dimensions, so each dimension becomes a child element
named location. -/
def encodeSourceAs (tag : String) (s : Source) : Xml :=
  .mk tag
    (optAttrStr ("familyname") s.familyname
      ++ optAttrStr ("stylename") s.stylename
      ++ optAttrStr ("name") s.name
      ++ [("filename", .str s.filename)]
      ++ optAttrStr ("layer") s.layer)
    (s.location.map (encodeDimensionAs ("location")))
    ("")

mutual

/-- The derived serialization of one plist value under a given element
name (the plist Dictionary serializes as a plain serde map, there being
no serialize_with on the lib fields): scalars become text content, an
array repeats the key element per item, a nested dict nests its entries. -/
def pvalueElems (k : String) : PValue → List Xml
  | .string s => [.mk k [] [] s]
  | .integer i => [.mk k [] [] (toString i)]
  | .real q => [.mk k [] [] (toString q)]
  | .boolean b => [.mk k [] [] (if b then ("true") else ("false"))]
  | .array xs => pvalueListElems k xs
  | .dict es => [.mk k [] (dictEntryElems es) ("")]
  | .data s => [.mk k [] [] s]
  | .date s => [.mk k [] [] s]

/-- Serialize the items of a plist array, one element per item. -/
def pvalueListElems (k : String) : List PValue → List Xml
  | [] => []
  | v :: rest => pvalueElems k v ++ pvalueListElems k rest

/-- Serialize the entries of a serde map, keys becoming element names. -/
def dictEntryElems : List (String × PValue) → List Xml
  | [] => []
  | (k, v) :: rest => pvalueElems k v ++ dictEntryElems rest

end

/-- The derived serialization of a lib field: an element named after the
field holding the map entries; the field is always written, empty or not
(no skip_serializing_if). -/
def encodeDictAs (k : String) (d : Dictionary) : Xml :=
  .mk k [] (dictEntryElems d) ("")

/-- Serialize one Instance under the given element name. -/
def encodeInstanceAs (tag : String) (i : Instance) : Xml :=
  .mk tag
    (optAttrStr ("familyname") i.familyname
      ++ optAttrStr ("stylename") i.stylename
      ++ optAttrStr ("name") i.name
      ++ optAttrStr ("filename") i.filename
      ++ optAttrStr ("postscriptfontname") i.postscriptfontname
      ++ optAttrStr ("stylemapfamilyname") i.stylemapfamilyname
      ++ optAttrStr ("stylemapstylename") i.stylemapstylename)
    (i.location.map (encodeDimensionAs ("location")) ++ [encodeDictAs ("lib") i.lib])
    ("")

/-- The encode half of the codec, the derived Serialize of
DesignSpaceDocument through the quick-xml serializer: the root element
takes the struct rename designspace, format becomes an attribute, and
each sequence field contributes one child element per item named after
the field (no wrapper element; an empty sequence contributes nothing). -/
def encodeDesignSpace (d : DesignSpaceDocument) : Xml :=
  .mk ("designspace") [("format", .num d.format)]
    (d.axes.map (encodeAxisAs ("axes"))
      ++ d.sources.map (encodeSourceAs ("sources"))
      ++ d.instances.map (encodeInstanceAs ("instances"))
      ++ [encodeDictAs ("lib") d.lib])
    ("")

/-- A run of spaces. -/
def spaces (n : Nat) : String :=
  String.mk (List.replicate n ' ')

/-- Attribute value text, as the serializer writes it. -/
def renderAVal : AVal → String
  | .str s => s
  | .num q => toString q
  | .numList qs => String.intercalate (" ") (qs.map toString)
  | .bool b => if b then ("true") else ("false")

/-- Attribute text of an element, each preceded by one space. -/
def renderAttrs : List (String × AVal) → String
  | [] => ""
  | (k, v) :: rest =>
    " " ++ k ++ "=" ++ "\"" ++ renderAVal v ++ "\"" ++ renderAttrs rest

mutual

/-- Render one element at nesting depth d, as the quick-xml serializer
configured with indent(space, 2) does: a childless, textless element is
self-closing; text content stays on one line; children each start on a
fresh line indented two spaces per level, the closing tag returning to
the parent's indentation. -/
def render (d : Nat) : Xml → String
  | .mk n a [] t =>
    if t = "" then "<" ++ n ++ renderAttrs a ++ "/>"
    else "<" ++ n ++ renderAttrs a ++ ">" ++ t ++ "</" ++ n ++ ">"
  | .mk n a (c :: cs) _ =>
    "<" ++ n ++ renderAttrs a ++ ">"
      ++ renderKids d (c :: cs)
      ++ "\n" ++ spaces (2 * d) ++ "</" ++ n ++ ">"

/-- Render a child list: every child is preceded by a newline and the
child-level indentation. -/
def renderKids (d : Nat) : List Xml → String
  | [] => ""
  | c :: rest =>
    "\n" ++ spaces (2 * (d + 1)) ++ render (d + 1) c ++ renderKids d rest

end

/-- The XML declaration header line save writes first. -/
def xmlHeaderLine : String :=
  "<?xml version=" ++ (Char.ofNat 39).toString ++ "1.0" ++ (Char.ofNat 39).toString
    ++ " encoding=" ++ (Char.ofNat 39).toString ++ "UTF-8" ++ (Char.ofNat 39).toString
    ++ "?>" ++ "\n"

/-- DesignSpaceDocument::save: the header line, the serialized root
element indented two spaces per level, and one trailing newline. -/
def save (d : DesignSpaceDocument) : String :=
  xmlHeaderLine ++ render 0 (encodeDesignSpace d) ++ "\n"

/-- Occurrence of an element at a nesting depth inside a root element. -/
inductive OccursAt (root : Xml) : Nat → Xml → Prop where
  | refl : OccursAt root 0 root
  | child {d : Nat} {p c : Xml} :
      OccursAt root d p → c ∈ p.children → OccursAt root (d + 1) c

/-- A minimal axis: required fields only. -/
def axis0 : Axis := ⟨"a", "aaaa", 0, false, none, none, none, none⟩

/-- A dimension giving a design-space coordinate. -/
def dim0 : Dimension := ⟨"w", none, some 0, none⟩

/-- A minimal source: filename and location only. -/
def src0 : Source := ⟨none, none, none, "f", none, [dim0]⟩

/-- A minimal instance: location only. -/
def inst0 : Instance := ⟨none, none, none, none, none, none, none, [dim0], []⟩

/-- A minimal document: one axis, one source, no instances, empty lib. -/
def docD0 : DesignSpaceDocument := ⟨0, [axis0], [src0], [], []⟩

/-- The minimal document with two instances. -/
def docD1 : DesignSpaceDocument := ⟨0, [axis0], [src0], [inst0, inst0], []⟩

/-- Markup for axis0. -/
def axisXml : Xml :=
  .mk ("axis") [("name", .str ("a")), ("tag", .str ("aaaa")), ("default", .num 0)] [] ("")

/-- Markup for dim0. -/
def dimXml : Xml :=
  .mk ("dimension") [("name", .str ("w")), ("xvalue", .num 0)] [] ("")

/-- A location wrapper holding one dimension. -/
def locXml : Xml := .mk ("location") [] [dimXml] ("")

/-- Markup for src0. -/
def srcXml : Xml := .mk ("source") [("filename", .str ("f"))] [locXml] ("")

/-- An axes wrapper holding exactly one axis. -/
def axesWrapperXml : Xml := .mk ("axes") [] [axisXml] ("")

/-- Wrapper-shaped markup for docD0: no instances wrapper, no lib. -/
def xml0 : Xml :=
  .mk ("designspace") [("format", .num 0)]
    [axesWrapperXml, .mk ("sources") [] [srcXml] ("")] ("")

/-- The first child save writes for docD0: the axis serialized under the
field name axes. -/
def exChild : Xml := encodeAxisAs ("axes") axis0

/-- A dimension element carrying only a name attribute. -/
def dimNameOnlyXml : Xml := .mk ("dimension") [("name", .str ("a"))] [] ("")

/-- A source element with a filename but no location child. -/
def srcNoLocXml : Xml := .mk ("source") [("filename", .str ("f"))] [] ("")

/-- A filesystem on which every open fails. -/
def fsDenied : String → Except String (Option Xml) := fun _ => .error ("denied")

end Norad

namespace Norad

/-! Helper lemmas. -/

/-- A bool attribute that is absent decodes to false. -/
theorem optBoolAttr_of_none {e : Xml} {k : String} (h : findAttr e k = none) :
    optBoolAttr e k = .ok false := by
  simp [optBoolAttr, h]

/-- An f32 attribute that is absent decodes to none. -/
theorem optNumAttr_of_none {e : Xml} {k : String} (h : findAttr e k = none) :
    optNumAttr e k = .ok none := by
  simp [optNumAttr, h]

/-- A required string attribute read successfully was present with that
string value. -/
theorem reqStrAttr_ok_iff {e : Xml} {k : String} {s : String}
    (h : reqStrAttr e k = .ok s) : findAttr e k = some (.str s) := by
  unfold reqStrAttr at h
  split at h
  next v heq =>
    rename_i s'
    cases h
    exact heq
  next => cases h
  next => cases h

/-- Rendering always ends with a closing angle bracket. -/
theorem render_ends_gt (d : Nat) (e : Xml) : ∃ s, render d e = s ++ ">" := by
  cases e with
  | mk n a cs t =>
    cases cs with
    | nil =>
      by_cases ht : t = ""
      · refine ⟨"<" ++ n ++ renderAttrs a ++ "/", ?_⟩
        rw [render, if_pos ht]
        have h2 : ("/" : String) ++ ">" = "/>" := by decide
        rw [← h2, ← String.append_assoc]
      · exact ⟨"<" ++ n ++ renderAttrs a ++ ">" ++ t ++ "</" ++ n, by rw [render, if_neg ht]⟩
    | cons c cs =>
      exact ⟨"<" ++ n ++ renderAttrs a ++ ">" ++ renderKids d (c :: cs)
        ++ "\n" ++ spaces (2 * d) ++ "</" ++ n, by rw [render]⟩

/-- Every member of a child list is laid out in the rendered child text
preceded by a newline and the child-level indentation. -/
theorem renderKids_mem {c : Xml} (d : Nat) :
    ∀ cs : List Xml, c ∈ cs →
      ∃ s t, renderKids d cs = s ++ ("\n" ++ spaces (2 * (d + 1)) ++ render (d + 1) c) ++ t := by
  intro cs
  induction cs with
  | nil => intro h; cases h
  | cons hd tl ih =>
    intro h
    rcases List.mem_cons.mp h with rfl | hmem
    · exact ⟨"", renderKids d tl, by rw [renderKids]; simp [String.append_assoc]⟩
    · obtain ⟨s, t, hst⟩ := ih hmem
      refine ⟨"\n" ++ spaces (2 * (d + 1)) ++ render (d + 1) hd ++ s, t, ?_⟩
      rw [renderKids, hst]
      simp [String.append_assoc]

/-- Every direct child of an element is laid out in the rendered element
preceded by a newline and two spaces per nesting level. -/
theorem render_child {c e : Xml} (d : Nat) (h : c ∈ e.children) :
    ∃ s t, render d e = s ++ ("\n" ++ spaces (2 * (d + 1)) ++ render (d + 1) c) ++ t := by
  cases e with
  | mk n a cs t0 =>
    simp only [Xml.children] at h
    cases cs with
    | nil => cases h
    | cons c1 rest =>
      obtain ⟨s, t, hst⟩ := renderKids_mem d (c1 :: rest) h
      refine ⟨"<" ++ n ++ renderAttrs a ++ ">" ++ s,
        t ++ "\n" ++ spaces (2 * d) ++ "</" ++ n ++ ">", ?_⟩
      rw [render, hst]
      simp [String.append_assoc]

/-- Every element occurring strictly inside the root is laid out in the
rendered output preceded by a newline and two spaces per nesting level. -/
theorem render_occursAt {root : Xml} {d : Nat} {e : Xml}
    (h : OccursAt root d e) :
    0 < d → ∃ s t, render 0 root = s ++ ("\n" ++ spaces (2 * d) ++ render d e) ++ t := by
  induction h with
  | refl => intro hd; cases hd
  | child hp hmem ih =>
    rename_i d0 p c
    intro _
    cases d0 with
    | zero =>
      cases hp
      exact render_child 0 hmem
    | succ k =>
      obtain ⟨s, t, hst⟩ := ih (Nat.succ_pos k)
      obtain ⟨s2, t2, hst2⟩ := render_child (k + 1) hmem
      refine ⟨s ++ ("\n" ++ spaces (2 * (k + 1)) ++ s2), t2 ++ t, ?_⟩
      rw [hst, hst2]
      simp [String.append_assoc]

/-- A successful Except bind came from a successful first step. -/
theorem bind_ok_inv {ε α β : Type} {x : Except ε α} {f : α → Except ε β} {b : β}
    (h : Bind.bind x f = Except.ok b) : ∃ a, x = Except.ok a ∧ f a = Except.ok b := by
  cases x with
  | error err => exact Except.noConfusion h
  | ok a => exact ⟨a, rfl, h⟩

/-! Claim theorems. -/

/-- C1: the spec claims that for every document D successfully produced by
decode, encoding and decoding again yields D.  On this code the round trip
fails: docD0 is produced by decode (from the wrapper-shaped xml0), but the
derived serializer writes each axis as an element named axes carrying the
axis content directly, with no wrapper element holding axis children, so
re-decoding save's output stops with a missing axis field instead of
returning docD0 - contradicting the repository's own load_save_round_trip
test. -/
theorem c1_roundtrip_broken :
    decodeDesignSpace xml0 = .ok docD0
    ∧ decodeDesignSpace (encodeDesignSpace docD0) = .error (.missingField ("axis")) :=
  ⟨rfl, rfl⟩

/-- C2: the spec claims save wraps every sequence field in its singular
wrapper element and emits the instances wrapper even when the sequence is
empty.  The derived serializer does neither: an empty instances sequence
contributes no element at all, a two-instance sequence contributes two
sibling elements named instances (not one wrapper), no element named axis
or instance is ever produced, and a source's dimensions are written as
elements named location rather than dimension children of a wrapper. -/
theorem c2_save_wrappers_missing :
    childrenNamed (encodeDesignSpace docD0) ("instances") = []
    ∧ (childrenNamed (encodeDesignSpace docD1) ("instances")).length = 2
    ∧ childrenNamed (encodeDesignSpace docD0) ("axis") = []
    ∧ childrenNamed (encodeDesignSpace docD1) ("instance") = []
    ∧ childrenNamed (encodeSourceAs ("sources") src0) ("dimension") = [] :=
  ⟨rfl, rfl, rfl, rfl, rfl⟩

/-- C3: decoding markup with no instances wrapper element succeeds (the
field has a serde default) and yields an empty instances sequence, the
other fields decoding as usual. -/
theorem c3_missing_instances_decodes_empty (root : Xml) (fmt : Rat)
    (axs : List Axis) (srcs : List Source) (lb : Dictionary)
    (hi : childrenNamed root ("instances") = [])
    (hf : reqNumAttr root ("format") = .ok fmt)
    (ha : decodeAxesField root = .ok axs)
    (hs : decodeSourcesField root = .ok srcs)
    (hl : decodeLibField root = .ok lb) :
    decodeDesignSpace root = .ok ⟨fmt, axs, srcs, [], lb⟩ := by
  have hinst : decodeInstancesField root = .ok [] := by
    unfold decodeInstancesField
    rw [hi]
  simp [decodeDesignSpace, hf, ha, hs, hinst, hl, bind, Except.bind, pure, Except.pure]

/-- Witness for C3 at xml0, which has no instances wrapper. -/
theorem c3_witness :
    childrenNamed xml0 ("instances") = []
    ∧ decodeDesignSpace xml0 = .ok ⟨0, [axis0], [src0], [], []⟩ :=
  ⟨rfl, c3_missing_instances_decodes_empty xml0 0 [axis0] [src0] [] rfl rfl rfl rfl rfl⟩

/-- C4: an axes wrapper whose axis children are exactly one element
decodes to the one-element sequence holding that axis - the one-level
unwrap applies uniformly, with no special bare representation. -/
theorem c4_single_axis_unwraps (w c : Xml) (ax : Axis)
    (hw : childrenNamed w ("axis") = [c])
    (hc : decodeAxis c = .ok ax) :
    deserialize_axes w = .ok [ax] := by
  unfold deserialize_axes
  rw [hw]
  simp [List.mapM, List.mapM.loop, hc, bind, Except.bind, pure, Except.pure]

/-- Witness for C4 at a wrapper holding exactly the axis0 markup. -/
theorem c4_witness : deserialize_axes axesWrapperXml = .ok [axis0] :=
  c4_single_axis_unwraps axesWrapperXml axisXml axis0 rfl rfl

/-- C5: in a decoded axis, a missing hidden attribute decodes to false
and a missing minimum attribute decodes to an absent minimum (none, never
zero): optional absence is distinguished from a zero value. -/
theorem c5_optional_axis_attributes (e : Xml) (ax : Axis)
    (h : decodeAxis e = .ok ax) :
    (findAttr e ("hidden") = none → ax.hidden = false)
    ∧ (findAttr e ("minimum") = none → ax.minimum = none) := by
  unfold decodeAxis at h
  obtain ⟨nm, hnm, h⟩ := bind_ok_inv h
  obtain ⟨tg, htg, h⟩ := bind_ok_inv h
  obtain ⟨df, hdf, h⟩ := bind_ok_inv h
  obtain ⟨hid, hhid, h⟩ := bind_ok_inv h
  obtain ⟨mn, hmn, h⟩ := bind_ok_inv h
  obtain ⟨mx, hmx, h⟩ := bind_ok_inv h
  obtain ⟨vs, hvs, h⟩ := bind_ok_inv h
  obtain ⟨mp, hmp, h⟩ := bind_ok_inv h
  cases h
  constructor
  · intro hf
    rw [optBoolAttr_of_none hf] at hhid
    cases hhid
    rfl
  · intro hf
    rw [optNumAttr_of_none hf] at hmn
    cases hmn
    rfl

/-- Witness for C5 at the axis0 markup, which carries neither a hidden
nor a minimum attribute. -/
theorem c5_witness :
    (findAttr axisXml ("hidden") = none → axis0.hidden = false)
    ∧ (findAttr axisXml ("minimum") = none → axis0.minimum = none) :=
  c5_optional_axis_attributes axisXml axis0 rfl

/-- C6: load classifies failures: a source that cannot be opened or read
surfaces as an Io error wrapping the underlying system error, a source
whose bytes are read surfaces either a document or a structural DeError,
and a failing load never also produces a document. -/
theorem c6_load_error_classes (fs : String → Except String (Option Xml)) (p : String) :
    (∀ io, fs p = .error io → load fs p = .error (.Io io))
    ∧ (∀ content, fs p = .ok content →
        (∃ d, load fs p = .ok d) ∨ (∃ e, load fs p = .error (.DeError e)))
    ∧ (∀ err, load fs p = .error err → ¬ ∃ d, load fs p = .ok d) := by
  refine ⟨?_, ?_, ?_⟩
  · intro io hio
    unfold load
    rw [hio]
  · intro content hc
    unfold load
    rw [hc]
    cases content with
    | none => exact Or.inr ⟨.malformedXml, rfl⟩
    | some root =>
      cases hd : decodeDesignSpace root with
      | error e => exact Or.inr ⟨e, by simp [hd]⟩
      | ok d => exact Or.inl ⟨d, by simp [hd]⟩
  · rintro err herr ⟨d, hd⟩
    rw [herr] at hd
    exact Except.noConfusion hd

/-- Witness for C6 on a filesystem denying every open. -/
theorem c6_witness : load fsDenied ("p") = .error (.Io ("denied")) :=
  (c6_load_error_classes fsDenied ("p")).1 ("denied") rfl

/-- C7: for every document, save's byte output starts with the UTF-8 XML
declaration header line, ends with exactly one trailing newline directly
after the root element's closing bracket, and lays out every nested
element after a newline and two spaces of indentation per nesting level. -/
theorem c7_save_output_format (doc : DesignSpaceDocument) (d : Nat) (e : Xml)
    (hocc : OccursAt (encodeDesignSpace doc) d e) (hd : 0 < d) :
    (∃ r, save doc = xmlHeaderLine ++ r)
    ∧ (∃ u, save doc = u ++ (">" ++ "\n"))
    ∧ (∃ s t, save doc = s ++ ("\n" ++ spaces (2 * d) ++ render d e) ++ t) := by
  refine ⟨⟨render 0 (encodeDesignSpace doc) ++ "\n", ?_⟩, ?_, ?_⟩
  · rw [save, String.append_assoc]
  · obtain ⟨s, hs⟩ := render_ends_gt 0 (encodeDesignSpace doc)
    refine ⟨xmlHeaderLine ++ s, ?_⟩
    rw [save, hs]
    simp [String.append_assoc]
  · obtain ⟨s, t, hst⟩ := render_occursAt hocc hd
    refine ⟨xmlHeaderLine ++ s, t ++ "\n", ?_⟩
    rw [save, hst]
    simp [String.append_assoc]

/-- Witness for C7 at docD0 and the first child save writes for it. -/
theorem c7_witness :
    (∃ r, save docD0 = xmlHeaderLine ++ r)
    ∧ (∃ u, save docD0 = u ++ (">" ++ "\n"))
    ∧ (∃ s t, save docD0 = s ++ ("\n" ++ spaces (2 * 1) ++ render 1 exChild) ++ t) := by
  have h0 : (encodeDesignSpace docD0).children
      = exChild :: encodeSourceAs ("sources") src0 :: encodeDictAs ("lib") [] :: [] := rfl
  have hm : exChild ∈ (encodeDesignSpace docD0).children := by
    rw [h0]
    exact List.mem_cons_self _ _
  exact c7_save_output_format docD0 1 exChild (.child .refl hm) (by decide)

/-- C8: the spec claims a decoded dimension always carries at least one
of uservalue, xvalue, yvalue; the code enforces no such lower bound, and
a dimension element carrying only a name decodes successfully with all
three values absent. -/
theorem c8_counterexample :
    ¬ ∀ (e : Xml) (dm : Dimension), decodeDimension e = .ok dm →
        (dm.uservalue ≠ none ∨ dm.xvalue ≠ none ∨ dm.yvalue ≠ none) := by
  intro hall
  rcases hall dimNameOnlyXml ⟨"a", none, none, none⟩ rfl with h | h | h <;> exact h rfl

/-- C8 amended: a decoded dimension carries a required name, while each
of uservalue, xvalue and yvalue is independently optional - zero to three
may be present, and a missing attribute decodes to an absent value. -/
theorem c8_dimension_fields (e : Xml) (dm : Dimension)
    (h : decodeDimension e = .ok dm) :
    (findAttr e ("name") = some (.str dm.name))
    ∧ (findAttr e ("uservalue") = none → dm.uservalue = none)
    ∧ (findAttr e ("xvalue") = none → dm.xvalue = none)
    ∧ (findAttr e ("yvalue") = none → dm.yvalue = none) := by
  unfold decodeDimension at h
  obtain ⟨nm, hnm, h⟩ := bind_ok_inv h
  obtain ⟨uv, huv, h⟩ := bind_ok_inv h
  obtain ⟨xv, hxv, h⟩ := bind_ok_inv h
  obtain ⟨yv, hyv, h⟩ := bind_ok_inv h
  cases h
  refine ⟨reqStrAttr_ok_iff hnm, ?_, ?_, ?_⟩
  · intro hf
    rw [optNumAttr_of_none hf] at huv
    cases huv
    rfl
  · intro hf
    rw [optNumAttr_of_none hf] at hxv
    cases hxv
    rfl
  · intro hf
    rw [optNumAttr_of_none hf] at hyv
    cases hyv
    rfl

/-- Witness for the amended C8 at the name-only dimension markup. -/
theorem c8_witness :
    (findAttr dimNameOnlyXml ("name")
      = some (.str (Dimension.mk ("a") none none none).name))
    ∧ (findAttr dimNameOnlyXml ("uservalue") = none →
        (Dimension.mk ("a") none none none).uservalue = none)
    ∧ (findAttr dimNameOnlyXml ("xvalue") = none →
        (Dimension.mk ("a") none none none).xvalue = none)
    ∧ (findAttr dimNameOnlyXml ("yvalue") = none →
        (Dimension.mk ("a") none none none).yvalue = none) :=
  c8_dimension_fields dimNameOnlyXml ⟨"a", none, none, none⟩ rfl

/-- C9: DataRequest::all sets every one of the seven flags, DataRequest::none
clears every one, and the Default impl equals all. -/
theorem c9_datarequest_all_none_default :
    DataRequest.all.layers = true ∧ DataRequest.all.lib = true
    ∧ DataRequest.all.groups = true ∧ DataRequest.all.kerning = true
    ∧ DataRequest.all.features = true ∧ DataRequest.all.data = true
    ∧ DataRequest.all.images = true
    ∧ DataRequest.none.layers = false ∧ DataRequest.none.lib = false
    ∧ DataRequest.none.groups = false ∧ DataRequest.none.kerning = false
    ∧ DataRequest.none.features = false ∧ DataRequest.none.data = false
    ∧ DataRequest.none.images = false
    ∧ DataRequest.default = DataRequest.all := by
  decide

/-- C10: a source element with no location child fails to decode - the
location field has no serde default, so its absence is a structural
deserialization error rather than a tolerated default. -/
theorem c10_missing_location_fails (e : Xml)
    (h : childrenNamed e ("location") = []) :
    ∃ err, decodeSource e = .error err := by
  have hone : oneChild e ("location") = .error (.missingField ("location")) := by
    unfold oneChild
    rw [h]
  unfold decodeSource
  simp only [bind, Except.bind, hone]
  repeat' split
  all_goals exact ⟨_, rfl⟩

/-- Witness for C10 at a source markup lacking a location child. -/
theorem c10_witness : ∃ err, decodeSource srcNoLocXml = .error err :=
  c10_missing_location_fails srcNoLocXml rfl

end Norad
